import Mathlib

/-
Shallow embedding of the FlexOS UEFI hand-off code:
  src/boot/uefi/boot_services/get_memory_map.c
  src/boot/uefi/runtime_services/exit_boot_services.c

Firmware behaviour is modelled as an oracle giving, for each retry
attempt, the replies of the firmware calls made in that attempt
(size probe, pool allocation, map fetch, exit handshake).  Both
functions are translated as fuel-bounded loops that return the final
EFI status, the caller-visible out-parameter cells, and a trace of
the firmware calls performed (each trace event is tagged with the
attempt index during which it was made).
-/

namespace FlexOS

/-- EFI_SUCCESS status code. -/
def EFI_SUCCESS : Nat := 0

/-- High bit of a 64-bit EFI_STATUS; set on all error codes. -/
def EFI_ERR_BIT : Nat := 2 ^ 63

def EFI_INVALID_PARAMETER : Nat := EFI_ERR_BIT + 2
def EFI_BUFFER_TOO_SMALL : Nat := EFI_ERR_BIT + 5
def EFI_NOT_READY : Nat := EFI_ERR_BIT + 6
def EFI_DEVICE_ERROR : Nat := EFI_ERR_BIT + 7
def EFI_OUT_OF_RESOURCES : Nat := EFI_ERR_BIT + 9
def EFI_ABORTED : Nat := EFI_ERR_BIT + 21

/-- The EFI_ERROR macro: tests the high bit of a status. -/
def EFI_ERROR (s : Nat) : Bool := decide (EFI_ERR_BIT ≤ s)

/-- MEMORY_MAP_MAX_RETRIES in get_memory_map.c. -/
def MEMORY_MAP_MAX_RETRIES : Nat := 8

/-- MEMORY_MAP_EXTRA_DESCRIPTORS in get_memory_map.c. -/
def MEMORY_MAP_EXTRA_DESCRIPTORS : Nat := 16

/-- EXIT_BOOT_SERVICES_MAX_RETRIES in exit_boot_services.c. -/
def EXIT_BOOT_SERVICES_MAX_RETRIES : Nat := 8

/-- Reply of a GetMemoryMap size probe (zero-sized null buffer): the
status and the values firmware writes through the five pointers. -/
structure ProbeReply where
  status : Nat
  size : Nat
  mapKey : Nat
  descriptorSize : Nat
  descriptorVersion : Nat
deriving DecidableEq, Repr

/-- Reply of an AllocatePool call: status and, on success, the address
of the allocated buffer. -/
structure AllocReply where
  status : Nat
  addr : Nat
deriving DecidableEq, Repr

/-- Reply of the real GetMemoryMap fetch into an allocated buffer. -/
structure FetchReply where
  status : Nat
  updatedSize : Nat
  mapKey : Nat
  descriptorSize : Nat
  descriptorVersion : Nat
deriving DecidableEq, Repr

/-- The firmware replies consumed by one retry attempt. -/
structure AttemptOracle where
  probe : ProbeReply
  alloc : AllocReply
  fetch : FetchReply
  exitStatus : Nat
deriving DecidableEq, Repr

/-- Firmware behaviour across attempts: attempt index to replies. -/
abbrev Oracle := Nat → AttemptOracle

/-- One firmware call, tagged with the attempt during which it was made. -/
inductive Event where
  | probe (attempt : Nat)
  | alloc (attempt : Nat) (size : Nat) (addr : Nat)
  | fetch (attempt : Nat) (addr : Nat) (size : Nat)
  | free (attempt : Nat) (addr : Nat)
  | exitBS (attempt : Nat) (key : Nat)
deriving DecidableEq, Repr

/-- The attempt index an event is tagged with. -/
def eventAttempt : Event → Nat
  | .probe a => a
  | .alloc a _ _ => a
  | .fetch a _ _ => a
  | .free a _ => a
  | .exitBS a _ => a

def isExitCall : Event → Bool
  | .exitBS _ _ => true
  | _ => false

/-- Number of ExitBootServices handshake calls in a trace. -/
def exitCallCount (t : List Event) : Nat := (t.filter isExitCall).length

/-- Addresses passed to AllocatePool, in call order. -/
def allocatedAddrs (t : List Event) : List Nat :=
  t.filterMap fun e => match e with
    | Event.alloc _ _ addr => some addr
    | _ => none

/-- Addresses passed to FreePool, in call order. -/
def freedAddrs (t : List Event) : List Nat :=
  t.filterMap fun e => match e with
    | Event.free _ addr => some addr
    | _ => none

/-- The caller-provided out-parameter cells of get_memory_map.
`memoryMap` and `memoryMapSize` are written only on the success
return; the other three cells are passed straight into the firmware
calls, which write them. -/
structure GmmOuts where
  memoryMap : Nat
  memoryMapSize : Nat
  mapKey : Nat
  descriptorSize : Nat
  descriptorVersion : Nat
deriving DecidableEq, Repr

/-- Nullness of the five out-pointers handed to get_memory_map. -/
structure GmmPtrs where
  memoryMapNull : Bool
  memoryMapSizeNull : Bool
  mapKeyNull : Bool
  descriptorSizeNull : Bool
  descriptorVersionNull : Bool
deriving DecidableEq, Repr

/-- Readiness of the environment: nullness of gST and gST->BootServices. -/
structure Env where
  gstNull : Bool
  bootServicesNull : Bool
deriving DecidableEq, Repr

/-- Effect of a probe call on the caller-visible cells: firmware writes
MapKey, DescriptorSize and DescriptorVersion through the pointers. -/
def probeWrite (outs : GmmOuts) (p : ProbeReply) : GmmOuts :=
  { outs with
    mapKey := p.mapKey
    descriptorSize := p.descriptorSize
    descriptorVersion := p.descriptorVersion }

/-- Effect of a fetch call on the caller-visible cells. -/
def fetchWrite (outs : GmmOuts) (fr : FetchReply) : GmmOuts :=
  { outs with
    mapKey := fr.mapKey
    descriptorSize := fr.descriptorSize
    descriptorVersion := fr.descriptorVersion }

/-- The retry loop of get_memory_map (lines 65-117 of
get_memory_map.c), one unfolding per remaining attempt.  Returns the
final status, the out-parameter cells, and the trace of firmware
calls made from attempt `a` on. -/
def gmmLoop (oracle : Oracle) (a fuel : Nat) (outs : GmmOuts) :
    Nat × GmmOuts × List Event :=
  match fuel with
  | 0 => (EFI_DEVICE_ERROR, outs, [])
  | fuel' + 1 =>
    let r := oracle a
    let outs1 := probeWrite outs r.probe
    if r.probe.status ≠ EFI_BUFFER_TOO_SMALL then
      (r.probe.status, outs1, [Event.probe a])
    else
      let sz := r.probe.size + r.probe.descriptorSize * MEMORY_MAP_EXTRA_DESCRIPTORS
      if EFI_ERROR r.alloc.status then
        (r.alloc.status, outs1, [Event.probe a, Event.alloc a sz r.alloc.addr])
      else
        let map := r.alloc.addr
        let outs2 := fetchWrite outs1 r.fetch
        if EFI_ERROR r.fetch.status then
          let rest := gmmLoop oracle (a + 1) fuel' outs2
          (rest.1, rest.2.1,
            Event.probe a :: Event.alloc a sz map :: Event.fetch a map sz ::
              Event.free a map :: rest.2.2)
        else if map % 8 ≠ 0 then
          (EFI_DEVICE_ERROR, outs2,
            [Event.probe a, Event.alloc a sz map, Event.fetch a map sz,
              Event.free a map])
        else
          (EFI_SUCCESS,
            { outs2 with memoryMap := map, memoryMapSize := r.fetch.updatedSize },
            [Event.probe a, Event.alloc a sz map, Event.fetch a map sz])

/-- get_memory_map (get_memory_map.c, lines 38-121): null-pointer
validation, readiness check, then the bounded retry loop. -/
def get_memory_map (ptrs : GmmPtrs) (env : Env) (oracle : Oracle)
    (outs : GmmOuts) : Nat × GmmOuts × List Event :=
  if ptrs.memoryMapNull || ptrs.memoryMapSizeNull || ptrs.mapKeyNull ||
      ptrs.descriptorSizeNull || ptrs.descriptorVersionNull then
    (EFI_INVALID_PARAMETER, outs, [])
  else if env.gstNull || env.bootServicesNull then
    (EFI_NOT_READY, outs, [])
  else
    gmmLoop oracle 0 MEMORY_MAP_MAX_RETRIES outs

/-- The retry loop of exit_boot_services (lines 71-147 of
exit_boot_services.c).  The slack factor here is the literal 8 of
line 94 (`MemoryMapSize += DescriptorSize * 8`), not the 16 used by
get_memory_map.  There is no alignment check in this loop; a fetch
success goes straight to the ExitBootServices handshake, whose key is
the MapKey the fetch just wrote. -/
def ebsLoop (oracle : Oracle) (a fuel : Nat) : Nat × List Event :=
  match fuel with
  | 0 => (EFI_ABORTED, [])
  | fuel' + 1 =>
    let r := oracle a
    if r.probe.status ≠ EFI_BUFFER_TOO_SMALL then
      (r.probe.status, [Event.probe a])
    else
      let sz := r.probe.size + r.probe.descriptorSize * 8
      if EFI_ERROR r.alloc.status then
        (r.alloc.status, [Event.probe a, Event.alloc a sz r.alloc.addr])
      else
        let map := r.alloc.addr
        if EFI_ERROR r.fetch.status then
          let rest := ebsLoop oracle (a + 1) fuel'
          (rest.1,
            Event.probe a :: Event.alloc a sz map :: Event.fetch a map sz ::
              Event.free a map :: rest.2)
        else if r.exitStatus = EFI_SUCCESS then
          (EFI_SUCCESS,
            [Event.probe a, Event.alloc a sz map, Event.fetch a map sz,
              Event.exitBS a r.fetch.mapKey])
        else
          let rest := ebsLoop oracle (a + 1) fuel'
          (rest.1,
            Event.probe a :: Event.alloc a sz map :: Event.fetch a map sz ::
              Event.exitBS a r.fetch.mapKey :: Event.free a map :: rest.2)

/-- exit_boot_services (exit_boot_services.c, lines 45-153): handle
validation, readiness check, then the bounded exit-retry loop.  A null
image handle is modelled as the handle value 0. -/
def exit_boot_services (imageHandle : Nat) (env : Env) (oracle : Oracle) :
    Nat × List Event :=
  if imageHandle = 0 then
    (EFI_INVALID_PARAMETER, [])
  else if env.gstNull || env.bootServicesNull then
    (EFI_NOT_READY, [])
  else
    ebsLoop oracle 0 EXIT_BOOT_SERVICES_MAX_RETRIES

/-- The probe replied EFI_BUFFER_TOO_SMALL, as a conformant firmware must. -/
abbrev probeOk (r : AttemptOracle) : Prop :=
  r.probe.status = EFI_BUFFER_TOO_SMALL

/-- The pool allocation succeeded (EFI_ERROR is false on its status). -/
abbrev allocOk (r : AttemptOracle) : Prop :=
  EFI_ERROR r.alloc.status = false

/-- The fetch failed with an error status (the transient race case). -/
abbrev fetchFailed (r : AttemptOracle) : Prop :=
  EFI_ERROR r.fetch.status = true

/-- The fetch succeeded (EFI_ERROR is false on its status). -/
abbrev fetchOk (r : AttemptOracle) : Prop :=
  EFI_ERROR r.fetch.status = false

/-- The allocated buffer is 8-byte aligned. -/
abbrev alignedBuf (r : AttemptOracle) : Prop :=
  r.alloc.addr % 8 = 0

/-- A transient attempt: probe fine, allocation fine, fetch fails. -/
abbrev transientAttempt (r : AttemptOracle) : Prop :=
  probeOk r ∧ allocOk r ∧ fetchFailed r

/-- A fully successful acquisition attempt with an aligned buffer. -/
abbrev goodAttempt (r : AttemptOracle) : Prop :=
  probeOk r ∧ allocOk r ∧ fetchOk r ∧ alignedBuf r

/-- An exit attempt in which acquisition succeeds but the handshake is
refused (e.g. stale map key). -/
abbrev exitFailAttempt (r : AttemptOracle) : Prop :=
  probeOk r ∧ allocOk r ∧ fetchOk r ∧ r.exitStatus ≠ EFI_SUCCESS

/-- The buffer size get_memory_map allocates in an attempt. -/
def gmmAllocSize (r : AttemptOracle) : Nat :=
  r.probe.size + r.probe.descriptorSize * MEMORY_MAP_EXTRA_DESCRIPTORS

/-- The buffer size exit_boot_services allocates in an attempt. -/
def ebsAllocSize (r : AttemptOracle) : Nat :=
  r.probe.size + r.probe.descriptorSize * 8

/-- The four firmware calls of one transient get_memory_map attempt. -/
def gmmTransientEvents (a : Nat) (r : AttemptOracle) : List Event :=
  [Event.probe a, Event.alloc a (gmmAllocSize r) r.alloc.addr,
    Event.fetch a r.alloc.addr (gmmAllocSize r), Event.free a r.alloc.addr]

/-- The five firmware calls of one failed exit_boot_services attempt. -/
def ebsFailEvents (a : Nat) (r : AttemptOracle) : List Event :=
  [Event.probe a, Event.alloc a (ebsAllocSize r) r.alloc.addr,
    Event.fetch a r.alloc.addr (ebsAllocSize r),
    Event.exitBS a r.fetch.mapKey, Event.free a r.alloc.addr]

/-- Trace of `k` consecutive transient get_memory_map attempts
starting at attempt `a`. -/
def gmmChainEvents (oracle : Oracle) (a : Nat) : Nat → List Event
  | 0 => []
  | k + 1 => gmmTransientEvents a (oracle a) ++ gmmChainEvents oracle (a + 1) k

/-- Trace of `k` consecutive failed exit attempts starting at `a`. -/
def ebsChainEvents (oracle : Oracle) (a : Nat) : Nat → List Event
  | 0 => []
  | k + 1 => ebsFailEvents a (oracle a) ++ ebsChainEvents oracle (a + 1) k

/-- All five out-pointers non-null. -/
def ptrsOk : GmmPtrs := ⟨false, false, false, false, false⟩

/-- A ready environment: gST and gST->BootServices both non-null. -/
def envReady : Env := ⟨false, false⟩

/-- Initial contents of the caller's out-parameter cells. -/
def outs0 : GmmOuts := ⟨0, 0, 0, 0, 0⟩

/-- An unready environment: gST is null. -/
def envUnready : Env := ⟨true, false⟩

/-- Firmware following the spec's example trace: probe reports
requiredSize 4096 and descriptorSize 48, the fetch succeeds at once
with updatedSize 4200 and map key 0x1122 = 4386, and the handshake is
accepted. -/
def specTraceOracle : Oracle := fun _ =>
  { probe := { status := EFI_BUFFER_TOO_SMALL, size := 4096, mapKey := 17,
               descriptorSize := 48, descriptorVersion := 1 }
    alloc := { status := EFI_SUCCESS, addr := 4096 }
    fetch := { status := EFI_SUCCESS, updatedSize := 4200, mapKey := 4386,
               descriptorSize := 48, descriptorVersion := 1 }
    exitStatus := EFI_SUCCESS }

/-- Anomalous firmware whose size probe replies EFI_SUCCESS instead of
EFI_BUFFER_TOO_SMALL. -/
def probeAnomalyOracle : Oracle := fun _ =>
  { probe := { status := EFI_SUCCESS, size := 0, mapKey := 3,
               descriptorSize := 48, descriptorVersion := 1 }
    alloc := { status := EFI_SUCCESS, addr := 4096 }
    fetch := { status := EFI_SUCCESS, updatedSize := 0, mapKey := 3,
               descriptorSize := 48, descriptorVersion := 1 }
    exitStatus := EFI_SUCCESS }

/-- Firmware that hands out a misaligned (odd) buffer address on a
successful fetch, and would accept the handshake. -/
def misalignedOracle : Oracle := fun _ =>
  { probe := { status := EFI_BUFFER_TOO_SMALL, size := 4096, mapKey := 9,
               descriptorSize := 48, descriptorVersion := 1 }
    alloc := { status := EFI_SUCCESS, addr := 4097 }
    fetch := { status := EFI_SUCCESS, updatedSize := 4200, mapKey := 555,
               descriptorSize := 48, descriptorVersion := 1 }
    exitStatus := EFI_SUCCESS }

/-- Firmware on which every fetch fails with EFI_BUFFER_TOO_SMALL
(probes and allocations succeed, distinct aligned addresses). -/
def allTransientOracle : Oracle := fun i =>
  { probe := { status := EFI_BUFFER_TOO_SMALL, size := 4096, mapKey := i,
               descriptorSize := 48, descriptorVersion := 1 }
    alloc := { status := EFI_SUCCESS, addr := 8 * (i + 1) }
    fetch := { status := EFI_BUFFER_TOO_SMALL, updatedSize := 5000,
               mapKey := 100 + i, descriptorSize := 48, descriptorVersion := 1 }
    exitStatus := EFI_SUCCESS }

/-- Firmware with two transient fetch failures followed by a fully
successful, aligned acquisition on attempt 2 (distinct addresses). -/
def twoFailOracle : Oracle := fun i =>
  { probe := { status := EFI_BUFFER_TOO_SMALL, size := 4096, mapKey := i,
               descriptorSize := 48, descriptorVersion := 1 }
    alloc := { status := EFI_SUCCESS, addr := 8 * (i + 1) }
    fetch := { status := if i < 2 then EFI_BUFFER_TOO_SMALL else EFI_SUCCESS,
               updatedSize := 4200, mapKey := 100 + i, descriptorSize := 48,
               descriptorVersion := 1 }
    exitStatus := EFI_SUCCESS }

/-- Firmware whose handshake rejects the key as stale on attempts 0-7
and would accept it from attempt 8 on; acquisition always succeeds. -/
def allStaleExitOracle : Oracle := fun i =>
  { probe := { status := EFI_BUFFER_TOO_SMALL, size := 4096, mapKey := i,
               descriptorSize := 48, descriptorVersion := 1 }
    alloc := { status := EFI_SUCCESS, addr := 8 * (i + 1) }
    fetch := { status := EFI_SUCCESS, updatedSize := 4200, mapKey := 200 + i,
               descriptorSize := 48, descriptorVersion := 1 }
    exitStatus := if i < 8 then EFI_INVALID_PARAMETER else EFI_SUCCESS }

/-- Prepend firmware calls to the trace of a get_memory_map result. -/
def gmmPrepend (evts : List Event) (res : Nat × GmmOuts × List Event) :
    Nat × GmmOuts × List Event :=
  (res.1, res.2.1, evts ++ res.2.2)

/-- Prepend firmware calls to the trace of an exit_boot_services result. -/
def ebsPrepend (evts : List Event) (res : Nat × List Event) :
    Nat × List Event :=
  (res.1, evts ++ res.2)

/-- Per-attempt shape of exit_boot_services firmware calls: every call
of attempt `i` uses the sizes, addresses and keys of attempt `i` of
the oracle; in particular a handshake call uses the map key written by
the very fetch of its own attempt, and that attempt's probe,
allocation and fetch all succeeded. -/
def ebsEventOk (oracle : Oracle) : Event → Prop
  | Event.probe _ => True
  | Event.alloc i s addr => s = ebsAllocSize (oracle i) ∧ addr = (oracle i).alloc.addr
  | Event.fetch i addr s => addr = (oracle i).alloc.addr ∧ s = ebsAllocSize (oracle i)
  | Event.free i addr => addr = (oracle i).alloc.addr
  | Event.exitBS i k => k = (oracle i).fetch.mapKey ∧ probeOk (oracle i) ∧
      allocOk (oracle i) ∧ fetchOk (oracle i)

/-- Per-attempt shape of get_memory_map firmware calls; get_memory_map
never calls the exit handshake. -/
def gmmEventOk (oracle : Oracle) : Event → Prop
  | Event.probe _ => True
  | Event.alloc i s addr => s = gmmAllocSize (oracle i) ∧ addr = (oracle i).alloc.addr
  | Event.fetch i addr s => addr = (oracle i).alloc.addr ∧ s = gmmAllocSize (oracle i)
  | Event.free i addr => addr = (oracle i).alloc.addr
  | Event.exitBS _ _ => False

@[simp] theorem probeWrite_memoryMap (outs : GmmOuts) (p : ProbeReply) :
    (probeWrite outs p).memoryMap = outs.memoryMap := rfl

@[simp] theorem probeWrite_memoryMapSize (outs : GmmOuts) (p : ProbeReply) :
    (probeWrite outs p).memoryMapSize = outs.memoryMapSize := rfl

@[simp] theorem fetchWrite_memoryMap (outs : GmmOuts) (fr : FetchReply) :
    (fetchWrite outs fr).memoryMap = outs.memoryMap := rfl

@[simp] theorem fetchWrite_memoryMapSize (outs : GmmOuts) (fr : FetchReply) :
    (fetchWrite outs fr).memoryMapSize = outs.memoryMapSize := rfl

@[simp] theorem gmmPrepend_nil (res : Nat × GmmOuts × List Event) :
    gmmPrepend [] res = res := rfl

@[simp] theorem ebsPrepend_nil (res : Nat × List Event) :
    ebsPrepend [] res = res := rfl

theorem gmmPrepend_append (e1 e2 : List Event) (res : Nat × GmmOuts × List Event) :
    gmmPrepend e1 (gmmPrepend e2 res) = gmmPrepend (e1 ++ e2) res := by
  simp [gmmPrepend]

theorem ebsPrepend_append (e1 e2 : List Event) (res : Nat × List Event) :
    ebsPrepend e1 (ebsPrepend e2 res) = ebsPrepend (e1 ++ e2) res := by
  simp [ebsPrepend]

@[simp] theorem gmmPrepend_fst (evts : List Event) (res : Nat × GmmOuts × List Event) :
    (gmmPrepend evts res).1 = res.1 := rfl

@[simp] theorem gmmPrepend_snd_fst (evts : List Event) (res : Nat × GmmOuts × List Event) :
    (gmmPrepend evts res).2.1 = res.2.1 := rfl

@[simp] theorem gmmPrepend_snd_snd (evts : List Event) (res : Nat × GmmOuts × List Event) :
    (gmmPrepend evts res).2.2 = evts ++ res.2.2 := rfl

@[simp] theorem ebsPrepend_fst (evts : List Event) (res : Nat × List Event) :
    (ebsPrepend evts res).1 = res.1 := rfl

@[simp] theorem ebsPrepend_snd (evts : List Event) (res : Nat × List Event) :
    (ebsPrepend evts res).2 = evts ++ res.2 := rfl

/-- One transient attempt of the get_memory_map loop: probe, allocate
and fetch, the fetch fails, the buffer is released, the loop retries. -/
theorem gmmLoop_transient_step (oracle : Oracle) (a fuel : Nat) (outs : GmmOuts)
    (h : transientAttempt (oracle a)) :
    gmmLoop oracle a (fuel + 1) outs =
      gmmPrepend (gmmTransientEvents a (oracle a))
        (gmmLoop oracle (a + 1) fuel
          (fetchWrite (probeWrite outs (oracle a).probe) (oracle a).fetch)) := by
  obtain ⟨hp, ha, hf⟩ := h
  simp [gmmLoop, hp, ha, hf, gmmTransientEvents, gmmAllocSize, gmmPrepend]

/-- One fully successful attempt of the get_memory_map loop: the
buffer and the fetch's updated size are stored and EFI_SUCCESS is
returned; no release happens. -/
theorem gmmLoop_good_step (oracle : Oracle) (a fuel : Nat) (outs : GmmOuts)
    (h : goodAttempt (oracle a)) :
    gmmLoop oracle a (fuel + 1) outs =
      (EFI_SUCCESS,
       { fetchWrite (probeWrite outs (oracle a).probe) (oracle a).fetch with
           memoryMap := (oracle a).alloc.addr
           memoryMapSize := (oracle a).fetch.updatedSize },
       [Event.probe a, Event.alloc a (gmmAllocSize (oracle a)) (oracle a).alloc.addr,
        Event.fetch a (oracle a).alloc.addr (gmmAllocSize (oracle a))]) := by
  obtain ⟨hp, ha, hf, hal⟩ := h
  simp [gmmLoop, hp, ha, hf, hal, gmmAllocSize]

/-- A successful fetch into a misaligned buffer: get_memory_map
releases that buffer once and returns EFI_DEVICE_ERROR at once,
performing no further attempt. -/
theorem gmmLoop_misaligned_step (oracle : Oracle) (a fuel : Nat) (outs : GmmOuts)
    (hp : probeOk (oracle a)) (ha : allocOk (oracle a)) (hf : fetchOk (oracle a))
    (hm : (oracle a).alloc.addr % 8 ≠ 0) :
    gmmLoop oracle a (fuel + 1) outs =
      (EFI_DEVICE_ERROR,
       fetchWrite (probeWrite outs (oracle a).probe) (oracle a).fetch,
       gmmTransientEvents a (oracle a)) := by
  simp [gmmLoop, hp, ha, hf, hm, gmmTransientEvents, gmmAllocSize]

/-- A probe reply other than EFI_BUFFER_TOO_SMALL makes the
get_memory_map loop return that very status at once: no allocation, no
fetch, no retry. -/
theorem gmmLoop_probe_anomaly_step (oracle : Oracle) (a fuel : Nat) (outs : GmmOuts)
    (hp : (oracle a).probe.status ≠ EFI_BUFFER_TOO_SMALL) :
    gmmLoop oracle a (fuel + 1) outs =
      ((oracle a).probe.status, probeWrite outs (oracle a).probe,
        [Event.probe a]) := by
  simp [gmmLoop, hp]

/-- One failed exit attempt: acquisition succeeds, the handshake is
refused, the snapshot is released and the loop retries. -/
theorem ebsLoop_fail_step (oracle : Oracle) (a fuel : Nat)
    (h : exitFailAttempt (oracle a)) :
    ebsLoop oracle a (fuel + 1) =
      ebsPrepend (ebsFailEvents a (oracle a)) (ebsLoop oracle (a + 1) fuel) := by
  obtain ⟨hp, ha, hf, he⟩ := h
  simp [ebsLoop, hp, ha, hf, he, ebsFailEvents, ebsAllocSize, ebsPrepend]

/-- A successful handshake ends the exit loop at once; note that no
alignment check is made on the fetched buffer on this path. -/
theorem ebsLoop_exit_ok_step (oracle : Oracle) (a fuel : Nat)
    (hp : probeOk (oracle a)) (ha : allocOk (oracle a)) (hf : fetchOk (oracle a))
    (he : (oracle a).exitStatus = EFI_SUCCESS) :
    ebsLoop oracle a (fuel + 1) =
      (EFI_SUCCESS,
       [Event.probe a, Event.alloc a (ebsAllocSize (oracle a)) (oracle a).alloc.addr,
        Event.fetch a (oracle a).alloc.addr (ebsAllocSize (oracle a)),
        Event.exitBS a (oracle a).fetch.mapKey]) := by
  simp [ebsLoop, hp, ha, hf, he, ebsAllocSize]

/-- EFI_DEVICE_ERROR is not EFI_SUCCESS. -/
theorem EFI_DEVICE_ERROR_ne_success : EFI_DEVICE_ERROR ≠ EFI_SUCCESS := by
  decide

/-- An error status is never EFI_SUCCESS. -/
theorem EFI_ERROR_ne_success {s : Nat} (h : EFI_ERROR s = true) :
    s ≠ EFI_SUCCESS := by
  simp only [EFI_ERROR, decide_eq_true_eq] at h
  intro he
  rw [he] at h
  simp [EFI_SUCCESS, EFI_ERR_BIT] at h

/-- Running `k` consecutive transient attempts of the get_memory_map
loop produces their chained events in front of the remaining loop. -/
theorem gmmLoop_transient_chain (oracle : Oracle) (k : Nat) :
    ∀ (a f : Nat) (outs : GmmOuts), k ≤ f →
    (∀ i, i < k → transientAttempt (oracle (a + i))) →
    ∃ outs', gmmLoop oracle a f outs =
      gmmPrepend (gmmChainEvents oracle a k)
        (gmmLoop oracle (a + k) (f - k) outs') := by
  induction k with
  | zero =>
    intro a f outs _ _
    exact ⟨outs, by simp [gmmChainEvents]⟩
  | succ k ih =>
    intro a f outs hkf hall
    obtain ⟨f', rfl⟩ : ∃ f', f = f' + 1 := ⟨f - 1, by omega⟩
    have h0 : transientAttempt (oracle a) := by
      have := hall 0 (by omega)
      simpa using this
    rw [gmmLoop_transient_step oracle a f' outs h0]
    obtain ⟨outs', heq⟩ := ih (a + 1) f'
      (fetchWrite (probeWrite outs (oracle a).probe) (oracle a).fetch)
      (by omega)
      (fun i hi => by
        have h2 : a + 1 + i = a + (i + 1) := by omega
        rw [h2]
        exact hall (i + 1) (by omega))
    refine ⟨outs', ?_⟩
    rw [heq, gmmPrepend_append]
    have h3 : a + 1 + k = a + (k + 1) := by omega
    have h4 : f' - k = f' + 1 - (k + 1) := by omega
    rw [h3, h4] at *
    simp [gmmChainEvents]

/-- Running `k` consecutive failed exit attempts produces their
chained events in front of the remaining exit loop. -/
theorem ebsLoop_fail_chain (oracle : Oracle) (k : Nat) :
    ∀ (a f : Nat), k ≤ f →
    (∀ i, i < k → exitFailAttempt (oracle (a + i))) →
    ebsLoop oracle a f =
      ebsPrepend (ebsChainEvents oracle a k) (ebsLoop oracle (a + k) (f - k)) := by
  induction k with
  | zero =>
    intro a f _ _
    simp [ebsChainEvents]
  | succ k ih =>
    intro a f hkf hall
    obtain ⟨f', rfl⟩ : ∃ f', f = f' + 1 := ⟨f - 1, by omega⟩
    have h0 : exitFailAttempt (oracle a) := by
      have := hall 0 (by omega)
      simpa using this
    rw [ebsLoop_fail_step oracle a f' h0]
    rw [ih (a + 1) f' (by omega)
      (fun i hi => by
        have h2 : a + 1 + i = a + (i + 1) := by omega
        rw [h2]
        exact hall (i + 1) (by omega))]
    rw [ebsPrepend_append]
    have h3 : a + 1 + k = a + (k + 1) := by omega
    have h4 : f' - k = f' + 1 - (k + 1) := by omega
    rw [h3, h4]
    simp [ebsChainEvents]

/-- exitCallCount distributes over trace concatenation. -/
theorem exitCallCount_append (l1 l2 : List Event) :
    exitCallCount (l1 ++ l2) = exitCallCount l1 + exitCallCount l2 := by
  simp [exitCallCount, List.filter_append]

/-- allocatedAddrs distributes over trace concatenation. -/
theorem allocatedAddrs_append (l1 l2 : List Event) :
    allocatedAddrs (l1 ++ l2) = allocatedAddrs l1 ++ allocatedAddrs l2 := by
  simp [allocatedAddrs, List.filterMap_append]

/-- freedAddrs distributes over trace concatenation. -/
theorem freedAddrs_append (l1 l2 : List Event) :
    freedAddrs (l1 ++ l2) = freedAddrs l1 ++ freedAddrs l2 := by
  simp [freedAddrs, List.filterMap_append]

/-- Each failed exit attempt makes exactly one handshake call. -/
theorem exitCallCount_ebsChainEvents (oracle : Oracle) (k : Nat) :
    ∀ a, exitCallCount (ebsChainEvents oracle a k) = k := by
  induction k with
  | zero => intro a; rfl
  | succ k ih =>
    intro a
    have h1 : exitCallCount (ebsFailEvents a (oracle a)) = 1 := rfl
    simp only [ebsChainEvents, exitCallCount_append, h1, ih (a + 1)]
    omega

/-- Events of a failed-exit chain all belong to attempts in `[a, a+k)`. -/
theorem eventAttempt_ebsChainEvents (oracle : Oracle) (k : Nat) :
    ∀ a, ∀ e ∈ ebsChainEvents oracle a k,
      a ≤ eventAttempt e ∧ eventAttempt e < a + k := by
  induction k with
  | zero => intro a e he; simp [ebsChainEvents] at he
  | succ k ih =>
    intro a e he
    simp only [ebsChainEvents, ebsFailEvents, List.mem_append,
      List.mem_cons, List.not_mem_nil, or_false] at he
    rcases he with (rfl | rfl | rfl | rfl | rfl) | h
    · simp [eventAttempt]
    · simp [eventAttempt]
    · simp [eventAttempt]
    · simp [eventAttempt]
    · simp [eventAttempt]
    · have := ih (a + 1) e h
      omega

/-- The addresses a transient chain allocates, in attempt order. -/
theorem allocatedAddrs_gmmChainEvents (oracle : Oracle) (k : Nat) :
    ∀ a, allocatedAddrs (gmmChainEvents oracle a k) =
      (List.range k).map (fun i => (oracle (a + i)).alloc.addr) := by
  induction k with
  | zero => intro a; rfl
  | succ k ih =>
    intro a
    rw [List.range_succ_eq_map]
    simp only [gmmChainEvents, allocatedAddrs_append, ih (a + 1),
      List.map_cons, List.map_map]
    rw [show allocatedAddrs (gmmTransientEvents a (oracle a)) =
      [(oracle a).alloc.addr] from rfl]
    rw [List.singleton_append]
    refine List.cons_eq_cons.mpr ⟨by simp, ?_⟩
    apply List.map_congr_left
    intro i _
    have h2 : a + 1 + i = a + Nat.succ i := by omega
    rw [h2]
    rfl

/-- The addresses a transient chain releases, in attempt order: the
very addresses it allocated. -/
theorem freedAddrs_gmmChainEvents (oracle : Oracle) (k : Nat) :
    ∀ a, freedAddrs (gmmChainEvents oracle a k) =
      (List.range k).map (fun i => (oracle (a + i)).alloc.addr) := by
  induction k with
  | zero => intro a; rfl
  | succ k ih =>
    intro a
    rw [List.range_succ_eq_map]
    simp only [gmmChainEvents, freedAddrs_append, ih (a + 1),
      List.map_cons, List.map_map]
    rw [show freedAddrs (gmmTransientEvents a (oracle a)) =
      [(oracle a).alloc.addr] from rfl]
    rw [List.singleton_append]
    refine List.cons_eq_cons.mpr ⟨by simp, ?_⟩
    apply List.map_congr_left
    intro i _
    have h2 : a + 1 + i = a + Nat.succ i := by omega
    rw [h2]
    rfl

/-- Every firmware call the exit loop makes matches the oracle replies
of its own attempt: allocation sizes come from that attempt's probe,
fetch and release use that attempt's fresh buffer, and the handshake
key is that attempt's fetch-written map key. -/
theorem ebsLoop_events_ok (oracle : Oracle) (f : Nat) :
    ∀ a, ∀ e ∈ (ebsLoop oracle a f).2, ebsEventOk oracle e := by
  induction f with
  | zero => intro a e he; simp [ebsLoop] at he
  | succ f ih =>
    intro a e he
    by_cases h1 : (oracle a).probe.status = EFI_BUFFER_TOO_SMALL
    · by_cases h2 : EFI_ERROR (oracle a).alloc.status = true
      · simp only [ebsLoop, h1, h2] at he
        simp at he
        rcases he with rfl | rfl
        · trivial
        · simp [ebsEventOk, ebsAllocSize]
      · by_cases h3 : EFI_ERROR (oracle a).fetch.status = true
        · simp only [ebsLoop, h1, h2, h3] at he
          simp at he
          rcases he with rfl | rfl | rfl | rfl | h
          · trivial
          · simp [ebsEventOk, ebsAllocSize]
          · simp [ebsEventOk, ebsAllocSize]
          · simp [ebsEventOk]
          · exact ih (a + 1) e h
        · by_cases h4 : (oracle a).exitStatus = EFI_SUCCESS
          · simp only [ebsLoop] at he
            simp [h1, h2, h3, h4] at he
            rcases he with rfl | rfl | rfl | rfl
            · trivial
            · simp [ebsEventOk, ebsAllocSize]
            · simp [ebsEventOk, ebsAllocSize]
            · exact ⟨rfl, h1, by simpa using h2, by simpa using h3⟩
          · simp only [ebsLoop] at he
            simp [h1, h2, h3, h4] at he
            rcases he with rfl | rfl | rfl | rfl | rfl | h
            · trivial
            · simp [ebsEventOk, ebsAllocSize]
            · simp [ebsEventOk, ebsAllocSize]
            · exact ⟨rfl, h1, by simpa using h2, by simpa using h3⟩
            · simp [ebsEventOk]
            · exact ih (a + 1) e h
    · simp only [ebsLoop, h1] at he
      simp [h1] at he
      subst he
      trivial

/-- Every firmware call the get_memory_map loop makes matches the
oracle replies of its own attempt, and the loop never calls the exit
handshake. -/
theorem gmmLoop_events_ok (oracle : Oracle) (f : Nat) :
    ∀ a outs, ∀ e ∈ (gmmLoop oracle a f outs).2.2, gmmEventOk oracle e := by
  induction f with
  | zero => intro a outs e he; simp [gmmLoop] at he
  | succ f ih =>
    intro a outs e he
    by_cases h1 : (oracle a).probe.status = EFI_BUFFER_TOO_SMALL
    · by_cases h2 : EFI_ERROR (oracle a).alloc.status = true
      · simp only [gmmLoop, h1, h2] at he
        simp at he
        rcases he with rfl | rfl
        · trivial
        · simp [gmmEventOk, gmmAllocSize]
      · by_cases h3 : EFI_ERROR (oracle a).fetch.status = true
        · simp only [gmmLoop, h1, h2, h3] at he
          simp at he
          rcases he with rfl | rfl | rfl | rfl | h
          · trivial
          · simp [gmmEventOk, gmmAllocSize]
          · simp [gmmEventOk, gmmAllocSize]
          · simp [gmmEventOk]
          · exact ih (a + 1) _ e h
        · by_cases h4 : (oracle a).alloc.addr % 8 = 0
          · simp only [gmmLoop] at he
            simp [h1, h2, h3, h4] at he
            rcases he with rfl | rfl | rfl
            · trivial
            · simp [gmmEventOk, gmmAllocSize]
            · simp [gmmEventOk, gmmAllocSize]
          · simp only [gmmLoop] at he
            simp [h1, h2, h3, h4] at he
            rcases he with rfl | rfl | rfl | rfl
            · trivial
            · simp [gmmEventOk, gmmAllocSize]
            · simp [gmmEventOk, gmmAllocSize]
            · simp [gmmEventOk]
    · simp only [gmmLoop, h1] at he
      simp [h1] at he
      subst he
      trivial

/-- Whenever the get_memory_map loop returns a status other than
EFI_SUCCESS, the caller's MemoryMap and MemoryMapSize cells are left
exactly as they were. -/
theorem gmmLoop_frame (oracle : Oracle) (f : Nat) :
    ∀ a outs, (gmmLoop oracle a f outs).1 ≠ EFI_SUCCESS →
      (gmmLoop oracle a f outs).2.1.memoryMap = outs.memoryMap ∧
      (gmmLoop oracle a f outs).2.1.memoryMapSize = outs.memoryMapSize := by
  induction f with
  | zero => intro a outs _; simp [gmmLoop]
  | succ f ih =>
    intro a outs h
    by_cases h1 : (oracle a).probe.status = EFI_BUFFER_TOO_SMALL
    · by_cases h2 : EFI_ERROR (oracle a).alloc.status = true
      · simp [gmmLoop, h1, h2]
      · by_cases h3 : EFI_ERROR (oracle a).fetch.status = true
        · have hstep := gmmLoop_transient_step oracle a f outs
            ⟨h1, by simpa using h2, h3⟩
          rw [hstep] at h ⊢
          simp only [gmmPrepend] at h ⊢
          have := ih (a + 1)
            (fetchWrite (probeWrite outs (oracle a).probe) (oracle a).fetch) h
          simpa using this
        · by_cases h4 : (oracle a).alloc.addr % 8 = 0
          · have hstep := gmmLoop_good_step oracle a f outs
              ⟨h1, by simpa using h2, by simpa using h3, h4⟩
            rw [hstep] at h
            simp at h
          · have hstep := gmmLoop_misaligned_step oracle a f outs h1
              (by simpa using h2) (by simpa using h3) h4
            rw [hstep]
            simp
    · simp [gmmLoop, h1]

/-- If the get_memory_map loop returns EFI_SUCCESS under a firmware
whose size probe never answers EFI_SUCCESS, then some attempt `i`
within the fuel window had a successful probe, allocation and fetch
into an aligned buffer, and the returned cells hold that attempt's
buffer address and fetch-updated size. -/
theorem gmmLoop_success_origin (oracle : Oracle) (f : Nat)
    (hno : ∀ i, (oracle i).probe.status ≠ EFI_SUCCESS) :
    ∀ a outs, (gmmLoop oracle a f outs).1 = EFI_SUCCESS →
    ∃ i, a ≤ i ∧ i < a + f ∧ probeOk (oracle i) ∧ allocOk (oracle i) ∧
      fetchOk (oracle i) ∧ alignedBuf (oracle i) ∧
      (gmmLoop oracle a f outs).2.1.memoryMap = (oracle i).alloc.addr ∧
      (gmmLoop oracle a f outs).2.1.memoryMapSize = (oracle i).fetch.updatedSize := by
  induction f with
  | zero =>
    intro a outs h
    exact absurd (by simpa [gmmLoop] using h) EFI_DEVICE_ERROR_ne_success
  | succ f ih =>
    intro a outs h
    by_cases h1 : (oracle a).probe.status = EFI_BUFFER_TOO_SMALL
    · by_cases h2 : EFI_ERROR (oracle a).alloc.status = true
      · rw [show gmmLoop oracle a (f + 1) outs =
          ((oracle a).alloc.status, probeWrite outs (oracle a).probe,
            [Event.probe a, Event.alloc a (gmmAllocSize (oracle a)) (oracle a).alloc.addr])
          from by simp [gmmLoop, h1, h2, gmmAllocSize]] at h
        exact absurd h (EFI_ERROR_ne_success h2)
      · by_cases h3 : EFI_ERROR (oracle a).fetch.status = true
        · have hstep := gmmLoop_transient_step oracle a f outs
            ⟨h1, by simpa using h2, h3⟩
          rw [hstep] at h ⊢
          simp only [gmmPrepend] at h ⊢
          obtain ⟨i, hi1, hi2, hrest⟩ := ih (a + 1)
            (fetchWrite (probeWrite outs (oracle a).probe) (oracle a).fetch) h
          exact ⟨i, by omega, by omega, hrest⟩
        · by_cases h4 : (oracle a).alloc.addr % 8 = 0
          · have hstep := gmmLoop_good_step oracle a f outs
              ⟨h1, by simpa using h2, by simpa using h3, h4⟩
            rw [hstep]
            refine ⟨a, by omega, by omega, h1, by simpa using h2,
              by simpa using h3, h4, by simp, by simp⟩
          · have hstep := gmmLoop_misaligned_step oracle a f outs h1
              (by simpa using h2) (by simpa using h3) h4
            rw [hstep] at h
            exact absurd (by simpa using h) EFI_DEVICE_ERROR_ne_success
    · rw [gmmLoop_probe_anomaly_step oracle a f outs h1] at h
      exact absurd h (hno a)

/-- With non-null pointers and a ready environment, get_memory_map is
its retry loop with fuel 8 starting at attempt 0. -/
theorem get_memory_map_run (ptrs : GmmPtrs) (env : Env) (oracle : Oracle)
    (outs : GmmOuts)
    (h1 : ptrs.memoryMapNull = false) (h2 : ptrs.memoryMapSizeNull = false)
    (h3 : ptrs.mapKeyNull = false) (h4 : ptrs.descriptorSizeNull = false)
    (h5 : ptrs.descriptorVersionNull = false)
    (h6 : env.gstNull = false) (h7 : env.bootServicesNull = false) :
    get_memory_map ptrs env oracle outs = gmmLoop oracle 0 8 outs := by
  simp [get_memory_map, h1, h2, h3, h4, h5, h6, h7, MEMORY_MAP_MAX_RETRIES]

/-- With a non-null handle and a ready environment, exit_boot_services
is its exit loop with fuel 8 starting at attempt 0. -/
theorem exit_boot_services_run (imageHandle : Nat) (env : Env) (oracle : Oracle)
    (hh : imageHandle ≠ 0)
    (h6 : env.gstNull = false) (h7 : env.bootServicesNull = false) :
    exit_boot_services imageHandle env oracle = ebsLoop oracle 0 8 := by
  simp [exit_boot_services, hh, h6, h7, EXIT_BOOT_SERVICES_MAX_RETRIES]

/-- Every event in a get_memory_map trace matches its attempt's oracle
replies. -/
theorem get_memory_map_events_ok (ptrs : GmmPtrs) (env : Env) (oracle : Oracle)
    (outs : GmmOuts) :
    ∀ e ∈ (get_memory_map ptrs env oracle outs).2.2, gmmEventOk oracle e := by
  intro e he
  simp only [get_memory_map] at he
  split at he
  · simp at he
  · split at he
    · simp at he
    · exact gmmLoop_events_ok oracle MEMORY_MAP_MAX_RETRIES 0 outs e he

/-- Every event in an exit_boot_services trace matches its attempt's
oracle replies. -/
theorem exit_boot_services_events_ok (imageHandle : Nat) (env : Env)
    (oracle : Oracle) :
    ∀ e ∈ (exit_boot_services imageHandle env oracle).2, ebsEventOk oracle e := by
  intro e he
  simp only [exit_boot_services] at he
  split at he
  · simp at he
  · split at he
    · simp at he
    · exact ebsLoop_events_ok oracle EXIT_BOOT_SERVICES_MAX_RETRIES 0 e he

/-- C1: with a non-null image handle, a ready environment, and a
firmware on which every one of the first 8 attempts acquires a map but
has its ExitBootServices handshake refused, exit_boot_services returns
EFI_ABORTED, makes exactly 8 handshake calls, and every firmware call
it makes belongs to attempts 0 through 7 — nothing about the oracle
from attempt 8 on is assumed, so a handshake that would succeed on a
hypothetical 9th attempt still yields EFI_ABORTED. -/
theorem claim_C1 (imageHandle : Nat) (env : Env) (oracle : Oracle)
    (hh : imageHandle ≠ 0) (h6 : env.gstNull = false)
    (h7 : env.bootServicesNull = false)
    (hfail : ∀ i, i < 8 → exitFailAttempt (oracle i)) :
    (exit_boot_services imageHandle env oracle).1 = EFI_ABORTED ∧
    exitCallCount (exit_boot_services imageHandle env oracle).2 = 8 ∧
    ∀ e ∈ (exit_boot_services imageHandle env oracle).2, eventAttempt e < 8 := by
  rw [exit_boot_services_run imageHandle env oracle hh h6 h7]
  rw [ebsLoop_fail_chain oracle 8 0 8 (by omega)
    (fun i hi => by simpa using hfail i hi)]
  rw [show ebsLoop oracle (0 + 8) (8 - 8) = (EFI_ABORTED, []) from rfl]
  refine ⟨rfl, ?_, ?_⟩
  · rw [show (ebsPrepend (ebsChainEvents oracle 0 8) (EFI_ABORTED, [])).2 =
      ebsChainEvents oracle 0 8 ++ [] from rfl]
    rw [List.append_nil]
    exact exitCallCount_ebsChainEvents oracle 8 0
  · intro e he
    rw [show (ebsPrepend (ebsChainEvents oracle 0 8) (EFI_ABORTED, [])).2 =
      ebsChainEvents oracle 0 8 ++ [] from rfl] at he
    rw [List.append_nil] at he
    have := eventAttempt_ebsChainEvents oracle 8 0 e he
    omega

/-- C1 witness: on the concrete oracle whose handshake is stale on
attempts 0-7 and would succeed on attempt 8, exit_boot_services
aborts after exactly 8 handshake calls. -/
theorem claim_C1_witness :
    (1 : Nat) ≠ 0 ∧ envReady.gstNull = false ∧
    envReady.bootServicesNull = false ∧
    (∀ i, i < 8 → exitFailAttempt (allStaleExitOracle i)) ∧
    (allStaleExitOracle 8).exitStatus = EFI_SUCCESS ∧
    ((exit_boot_services 1 envReady allStaleExitOracle).1 = EFI_ABORTED ∧
     exitCallCount (exit_boot_services 1 envReady allStaleExitOracle).2 = 8 ∧
     ∀ e ∈ (exit_boot_services 1 envReady allStaleExitOracle).2,
       eventAttempt e < 8) :=
  ⟨by decide, rfl, rfl, by decide, by decide,
   claim_C1 1 envReady allStaleExitOracle (by decide) rfl rfl (by decide)⟩

/-- C2: evaluation of both functions at the failing input, an
anomalous firmware whose size probe replies EFI_SUCCESS.  Both
functions return that probe status verbatim (line 79 of
get_memory_map.c, line 87 of exit_boot_services.c), so the anomaly is
reported to the caller as success — get_memory_map even returns
EFI_SUCCESS while leaving the MemoryMap and MemoryMapSize out-cells
unwritten — contradicting the claim that every probe anomaly fails the
call with a non-success error status. -/
theorem claim_C2 :
    (get_memory_map ptrsOk envReady probeAnomalyOracle outs0).1 = EFI_SUCCESS ∧
    (get_memory_map ptrsOk envReady probeAnomalyOracle outs0).2.2 =
      [Event.probe 0] ∧
    (get_memory_map ptrsOk envReady probeAnomalyOracle outs0).2.1.memoryMap =
      outs0.memoryMap ∧
    (get_memory_map ptrsOk envReady probeAnomalyOracle outs0).2.1.memoryMapSize =
      outs0.memoryMapSize ∧
    (exit_boot_services 1 envReady probeAnomalyOracle).1 = EFI_SUCCESS ∧
    (exit_boot_services 1 envReady probeAnomalyOracle).2 = [Event.probe 0] := by
  decide

/-- C3 (amended): every buffer allocated by get_memory_map has size
probedSize + descriptorSize × 16, but every buffer allocated by
exit_boot_services has size probedSize + descriptorSize × 8 — the two
call sites use different slack factors. -/
theorem claim_C3 :
    (∀ (ptrs : GmmPtrs) (env : Env) (oracle : Oracle) (outs : GmmOuts)
      (i s addr : Nat),
      Event.alloc i s addr ∈ (get_memory_map ptrs env oracle outs).2.2 →
      s = (oracle i).probe.size + (oracle i).probe.descriptorSize * 16) ∧
    (∀ (imageHandle : Nat) (env : Env) (oracle : Oracle) (i s addr : Nat),
      Event.alloc i s addr ∈ (exit_boot_services imageHandle env oracle).2 →
      s = (oracle i).probe.size + (oracle i).probe.descriptorSize * 8) := by
  constructor
  · intro ptrs env oracle outs i s addr he
    have h := get_memory_map_events_ok ptrs env oracle outs _ he
    simpa [gmmEventOk, gmmAllocSize, MEMORY_MAP_EXTRA_DESCRIPTORS] using h.1
  · intro imageHandle env oracle i s addr he
    have h := exit_boot_services_events_ok imageHandle env oracle _ he
    simpa [ebsEventOk, ebsAllocSize] using h.1

/-- C3 counterexample: on the spec's own example trace (probe reports
4096 bytes and descriptorSize 48), exit_boot_services allocates
4096 + 48 × 8 = 4480 bytes, not the claimed 4096 + 48 × 16 = 4864. -/
theorem claim_C3_counterexample :
    Event.alloc 0 4480 4096 ∈ (exit_boot_services 1 envReady specTraceOracle).2 ∧
    (specTraceOracle 0).probe.size = 4096 ∧
    (specTraceOracle 0).probe.descriptorSize = 48 ∧
    4480 ≠ 4096 + 48 * 16 := by
  decide

/-- C3 witness: the allocation of get_memory_map on the example trace
carries exactly the probed size plus sixteen descriptors of slack. -/
theorem claim_C3_witness :
    Event.alloc 0 4864 4096 ∈
      (get_memory_map ptrsOk envReady specTraceOracle outs0).2.2 ∧
    4864 = (specTraceOracle 0).probe.size +
      (specTraceOracle 0).probe.descriptorSize * 16 :=
  ⟨by decide,
   claim_C3.1 ptrsOk envReady specTraceOracle outs0 0 4864 4096 (by decide)⟩

/-- C4 (amended): in get_memory_map every successful fetch is followed
by the alignment check — a misaligned buffer is released exactly once
and the function returns EFI_DEVICE_ERROR at once, with no further
attempt; exit_boot_services, however, performs no alignment check at
all: whenever probe, allocation and fetch succeed and the handshake is
accepted, it returns EFI_SUCCESS with a single handshake call and no
release, regardless of the buffer address. -/
theorem claim_C4 :
    (∀ (oracle : Oracle) (a fuel : Nat) (outs : GmmOuts),
      probeOk (oracle a) → allocOk (oracle a) → fetchOk (oracle a) →
      (oracle a).alloc.addr % 8 ≠ 0 →
      (gmmLoop oracle a (fuel + 1) outs).1 = EFI_DEVICE_ERROR ∧
      (gmmLoop oracle a (fuel + 1) outs).2.2 = gmmTransientEvents a (oracle a) ∧
      freedAddrs (gmmLoop oracle a (fuel + 1) outs).2.2 =
        [(oracle a).alloc.addr]) ∧
    (∀ (oracle : Oracle) (a fuel : Nat),
      probeOk (oracle a) → allocOk (oracle a) → fetchOk (oracle a) →
      (oracle a).exitStatus = EFI_SUCCESS →
      (ebsLoop oracle a (fuel + 1)).1 = EFI_SUCCESS ∧
      exitCallCount (ebsLoop oracle a (fuel + 1)).2 = 1 ∧
      freedAddrs (ebsLoop oracle a (fuel + 1)).2 = []) := by
  constructor
  · intro oracle a fuel outs hp ha hf hm
    rw [gmmLoop_misaligned_step oracle a fuel outs hp ha hf hm]
    exact ⟨rfl, rfl, rfl⟩
  · intro oracle a fuel hp ha hf he
    rw [ebsLoop_exit_ok_step oracle a fuel hp ha hf he]
    exact ⟨rfl, rfl, rfl⟩

/-- C4 counterexample: on a firmware handing out the odd buffer
address 4097 with a successful fetch, exit_boot_services does not
abort or release: it performs the handshake and returns EFI_SUCCESS,
so the claimed alignment check after every successful fetch does not
exist in exit_boot_services. -/
theorem claim_C4_counterexample :
    (misalignedOracle 0).alloc.addr % 8 ≠ 0 ∧
    EFI_ERROR (misalignedOracle 0).fetch.status = false ∧
    (exit_boot_services 1 envReady misalignedOracle).1 = EFI_SUCCESS ∧
    exitCallCount (exit_boot_services 1 envReady misalignedOracle).2 = 1 ∧
    freedAddrs (exit_boot_services 1 envReady misalignedOracle).2 = [] := by
  decide

/-- C4 witness: both halves of the amended claim applied to the
misaligned-buffer firmware. -/
theorem claim_C4_witness :
    (probeOk (misalignedOracle 0) ∧ allocOk (misalignedOracle 0) ∧
     fetchOk (misalignedOracle 0) ∧ (misalignedOracle 0).alloc.addr % 8 ≠ 0 ∧
     ((gmmLoop misalignedOracle 0 8 outs0).1 = EFI_DEVICE_ERROR ∧
      (gmmLoop misalignedOracle 0 8 outs0).2.2 =
        gmmTransientEvents 0 (misalignedOracle 0) ∧
      freedAddrs (gmmLoop misalignedOracle 0 8 outs0).2.2 =
        [(misalignedOracle 0).alloc.addr])) ∧
    ((misalignedOracle 0).exitStatus = EFI_SUCCESS ∧
     ((ebsLoop misalignedOracle 0 8).1 = EFI_SUCCESS ∧
      exitCallCount (ebsLoop misalignedOracle 0 8).2 = 1 ∧
      freedAddrs (ebsLoop misalignedOracle 0 8).2 = [])) :=
  ⟨⟨by decide, by decide, by decide, by decide,
    claim_C4.1 misalignedOracle 0 7 outs0 (by decide) (by decide) (by decide)
      (by decide)⟩,
   ⟨by decide,
    claim_C4.2 misalignedOracle 0 7 (by decide) (by decide) (by decide)
      (by decide)⟩⟩

/-- C5 (amended): when all 8 attempts of get_memory_map fail on the
fetch step, the function returns EFI_DEVICE_ERROR.  That status is
distinct from the validation, readiness, resource and abort statuses,
but it is the very same EFI_DEVICE_ERROR the misaligned-buffer path
returns, so the caller cannot tell exhaustion from an integrity
failure by the status alone. -/
theorem claim_C5 (ptrs : GmmPtrs) (env : Env) (oracle : Oracle) (outs : GmmOuts)
    (h1 : ptrs.memoryMapNull = false) (h2 : ptrs.memoryMapSizeNull = false)
    (h3 : ptrs.mapKeyNull = false) (h4 : ptrs.descriptorSizeNull = false)
    (h5 : ptrs.descriptorVersionNull = false)
    (h6 : env.gstNull = false) (h7 : env.bootServicesNull = false)
    (hfail : ∀ i, i < 8 → transientAttempt (oracle i)) :
    (get_memory_map ptrs env oracle outs).1 = EFI_DEVICE_ERROR ∧
    EFI_DEVICE_ERROR ≠ EFI_INVALID_PARAMETER ∧
    EFI_DEVICE_ERROR ≠ EFI_NOT_READY ∧
    EFI_DEVICE_ERROR ≠ EFI_OUT_OF_RESOURCES ∧
    EFI_DEVICE_ERROR ≠ EFI_ABORTED := by
  rw [get_memory_map_run ptrs env oracle outs h1 h2 h3 h4 h5 h6 h7]
  obtain ⟨outs', heq⟩ := gmmLoop_transient_chain oracle 8 0 8 outs (by omega)
    (fun i hi => by simpa using hfail i hi)
  rw [heq]
  exact ⟨rfl, by decide, by decide, by decide, by decide⟩

/-- C5 counterexample: an execution exhausting all 8 fetch attempts
and an execution aborting on a misaligned buffer return the very same
status EFI_DEVICE_ERROR, so the exhaustion outcome is not distinct
from the integrity/device error as claimed. -/
theorem claim_C5_counterexample :
    (∀ i, i < 8 → transientAttempt (allTransientOracle i)) ∧
    (allocatedAddrs
      (get_memory_map ptrsOk envReady allTransientOracle outs0).2.2).length = 8 ∧
    (get_memory_map ptrsOk envReady allTransientOracle outs0).1 =
      EFI_DEVICE_ERROR ∧
    (misalignedOracle 0).alloc.addr % 8 ≠ 0 ∧
    (get_memory_map ptrsOk envReady misalignedOracle outs0).1 =
      EFI_DEVICE_ERROR ∧
    (get_memory_map ptrsOk envReady allTransientOracle outs0).1 =
      (get_memory_map ptrsOk envReady misalignedOracle outs0).1 := by
  decide

/-- C5 witness: the amended claim applied to the all-transient
firmware. -/
theorem claim_C5_witness :
    (∀ i, i < 8 → transientAttempt (allTransientOracle i)) ∧
    ((get_memory_map ptrsOk envReady allTransientOracle outs0).1 =
      EFI_DEVICE_ERROR ∧
     EFI_DEVICE_ERROR ≠ EFI_INVALID_PARAMETER ∧
     EFI_DEVICE_ERROR ≠ EFI_NOT_READY ∧
     EFI_DEVICE_ERROR ≠ EFI_OUT_OF_RESOURCES ∧
     EFI_DEVICE_ERROR ≠ EFI_ABORTED) :=
  ⟨by decide,
   claim_C5 ptrsOk envReady allTransientOracle outs0 rfl rfl rfl rfl rfl rfl rfl
     (by decide)⟩

/-- C6 (amended): whenever get_memory_map returns EFI_SUCCESS under a
firmware whose probe never anomalously answers EFI_SUCCESS, the
success comes from some attempt i < 8 whose probe, allocation and
fetch all succeeded with an aligned buffer, and the returned
*MemoryMapSize is exactly the updated size reported by that attempt's
fetch — not the allocated probedSize + 16 × descriptorSize, which it
can undercut. -/
theorem claim_C6 (ptrs : GmmPtrs) (env : Env) (oracle : Oracle) (outs : GmmOuts)
    (hno : ∀ i, (oracle i).probe.status ≠ EFI_SUCCESS)
    (hsucc : (get_memory_map ptrs env oracle outs).1 = EFI_SUCCESS) :
    ∃ i, i < 8 ∧ probeOk (oracle i) ∧ allocOk (oracle i) ∧ fetchOk (oracle i) ∧
      alignedBuf (oracle i) ∧
      (get_memory_map ptrs env oracle outs).2.1.memoryMap =
        (oracle i).alloc.addr ∧
      (get_memory_map ptrs env oracle outs).2.1.memoryMapSize =
        (oracle i).fetch.updatedSize := by
  by_cases hv : (ptrs.memoryMapNull || ptrs.memoryMapSizeNull || ptrs.mapKeyNull ||
      ptrs.descriptorSizeNull || ptrs.descriptorVersionNull) = true
  · rw [show get_memory_map ptrs env oracle outs = (EFI_INVALID_PARAMETER, outs, [])
      from by simp [get_memory_map, hv]] at hsucc
    exact absurd hsucc (by decide : EFI_INVALID_PARAMETER ≠ EFI_SUCCESS)
  · by_cases he : (env.gstNull || env.bootServicesNull) = true
    · rw [show get_memory_map ptrs env oracle outs = (EFI_NOT_READY, outs, [])
        from by simp [get_memory_map, hv, he]] at hsucc
      exact absurd hsucc (by decide : EFI_NOT_READY ≠ EFI_SUCCESS)
    · have hrun : get_memory_map ptrs env oracle outs = gmmLoop oracle 0 8 outs := by
        simp only [get_memory_map, hv, he]
        simp at hv he
        simp [hv, he, MEMORY_MAP_MAX_RETRIES]
      rw [hrun] at hsucc ⊢
      obtain ⟨i, _, hi2, hrest⟩ := gmmLoop_success_origin oracle 8 hno 0 outs hsucc
      exact ⟨i, by omega, hrest⟩

/-- C6 counterexample: on the spec's own example trace the fetch
succeeds with updatedSize 4200, so get_memory_map returns
*MemoryMapSize = 4200, which is smaller than
probedSize + 16 × descriptorSize = 4096 + 16 × 48 = 4864. -/
theorem claim_C6_counterexample :
    (get_memory_map ptrsOk envReady specTraceOracle outs0).1 = EFI_SUCCESS ∧
    (specTraceOracle 0).probe.size = 4096 ∧
    (specTraceOracle 0).probe.descriptorSize = 48 ∧
    (get_memory_map ptrsOk envReady specTraceOracle outs0).2.1.memoryMapSize =
      4200 ∧
    4200 < 4096 + 16 * 48 := by
  decide

/-- C6 witness: the amended claim applied to the example-trace
firmware. -/
theorem claim_C6_witness :
    (∀ i, (specTraceOracle i).probe.status ≠ EFI_SUCCESS) ∧
    (get_memory_map ptrsOk envReady specTraceOracle outs0).1 = EFI_SUCCESS ∧
    (∃ i, i < 8 ∧ probeOk (specTraceOracle i) ∧ allocOk (specTraceOracle i) ∧
      fetchOk (specTraceOracle i) ∧ alignedBuf (specTraceOracle i) ∧
      (get_memory_map ptrsOk envReady specTraceOracle outs0).2.1.memoryMap =
        (specTraceOracle i).alloc.addr ∧
      (get_memory_map ptrsOk envReady specTraceOracle outs0).2.1.memoryMapSize =
        (specTraceOracle i).fetch.updatedSize) :=
  ⟨fun i => by simp only [specTraceOracle]; decide, by decide,
   claim_C6 ptrsOk envReady specTraceOracle outs0
     (fun i => by simp only [specTraceOracle]; decide) (by decide)⟩

/-- C7: buffer accounting of get_memory_map.  With N transient fetch
failures followed by a fully successful aligned attempt (N < 8),
exactly N+1 allocations and exactly N releases happen, the released
addresses are precisely the first N allocated ones, and the one
outstanding buffer is the returned MemoryMap.  With 8 transient
failures, the 8 allocated addresses are all released, leaving zero
outstanding. -/
theorem claim_C7 :
    (∀ (oracle : Oracle) (outs : GmmOuts) (N : Nat), N < 8 →
      (∀ i, i < N → transientAttempt (oracle i)) →
      goodAttempt (oracle N) →
      (get_memory_map ptrsOk envReady oracle outs).1 = EFI_SUCCESS ∧
      allocatedAddrs (get_memory_map ptrsOk envReady oracle outs).2.2 =
        (List.range (N + 1)).map (fun i => (oracle i).alloc.addr) ∧
      freedAddrs (get_memory_map ptrsOk envReady oracle outs).2.2 =
        (List.range N).map (fun i => (oracle i).alloc.addr) ∧
      (get_memory_map ptrsOk envReady oracle outs).2.1.memoryMap =
        (oracle N).alloc.addr ∧
      allocatedAddrs (get_memory_map ptrsOk envReady oracle outs).2.2 =
        freedAddrs (get_memory_map ptrsOk envReady oracle outs).2.2 ++
          [(get_memory_map ptrsOk envReady oracle outs).2.1.memoryMap]) ∧
    (∀ (oracle : Oracle) (outs : GmmOuts),
      (∀ i, i < 8 → transientAttempt (oracle i)) →
      (get_memory_map ptrsOk envReady oracle outs).1 = EFI_DEVICE_ERROR ∧
      allocatedAddrs (get_memory_map ptrsOk envReady oracle outs).2.2 =
        (List.range 8).map (fun i => (oracle i).alloc.addr) ∧
      freedAddrs (get_memory_map ptrsOk envReady oracle outs).2.2 =
        allocatedAddrs (get_memory_map ptrsOk envReady oracle outs).2.2) := by
  constructor
  · intro oracle outs N hN hfail hgood
    rw [get_memory_map_run ptrsOk envReady oracle outs rfl rfl rfl rfl rfl rfl rfl]
    obtain ⟨outs', heq⟩ := gmmLoop_transient_chain oracle N 0 8 outs (by omega)
      (fun i hi => by simpa using hfail i hi)
    rw [heq, Nat.zero_add]
    have h8 : 8 - N = (7 - N) + 1 := by omega
    rw [h8, gmmLoop_good_step oracle N (7 - N) outs' hgood]
    have halloc : allocatedAddrs (gmmChainEvents oracle 0 N ++
        [Event.probe N, Event.alloc N (gmmAllocSize (oracle N)) (oracle N).alloc.addr,
          Event.fetch N (oracle N).alloc.addr (gmmAllocSize (oracle N))]) =
        (List.range (N + 1)).map (fun i => (oracle i).alloc.addr) := by
      rw [allocatedAddrs_append, allocatedAddrs_gmmChainEvents oracle N 0]
      rw [show allocatedAddrs [Event.probe N,
        Event.alloc N (gmmAllocSize (oracle N)) (oracle N).alloc.addr,
        Event.fetch N (oracle N).alloc.addr (gmmAllocSize (oracle N))] =
        [(oracle N).alloc.addr] from rfl]
      rw [List.range_succ, List.map_append]
      simp
    have hfreed : freedAddrs (gmmChainEvents oracle 0 N ++
        [Event.probe N, Event.alloc N (gmmAllocSize (oracle N)) (oracle N).alloc.addr,
          Event.fetch N (oracle N).alloc.addr (gmmAllocSize (oracle N))]) =
        (List.range N).map (fun i => (oracle i).alloc.addr) := by
      rw [freedAddrs_append, freedAddrs_gmmChainEvents oracle N 0]
      rw [show freedAddrs [Event.probe N,
        Event.alloc N (gmmAllocSize (oracle N)) (oracle N).alloc.addr,
        Event.fetch N (oracle N).alloc.addr (gmmAllocSize (oracle N))] =
        ([] : List Nat) from rfl]
      simp
    refine ⟨rfl, by simpa using halloc, by simpa using hfreed, rfl, ?_⟩
    simp only [gmmPrepend_snd_snd, gmmPrepend_snd_fst]
    rw [halloc, hfreed]
    rw [List.range_succ, List.map_append]
    simp
  · intro oracle outs hfail
    rw [get_memory_map_run ptrsOk envReady oracle outs rfl rfl rfl rfl rfl rfl rfl]
    obtain ⟨outs', heq⟩ := gmmLoop_transient_chain oracle 8 0 8 outs (by omega)
      (fun i hi => by simpa using hfail i hi)
    rw [heq]
    rw [show gmmLoop oracle (0 + 8) (8 - 8) outs' = (EFI_DEVICE_ERROR, outs', [])
      from rfl]
    refine ⟨rfl, ?_, ?_⟩
    · simp only [gmmPrepend_snd_snd]
      rw [List.append_nil, allocatedAddrs_gmmChainEvents oracle 8 0]
      simp
    · simp only [gmmPrepend_snd_snd]
      rw [List.append_nil, allocatedAddrs_gmmChainEvents oracle 8 0,
        freedAddrs_gmmChainEvents oracle 8 0]

/-- C7 witness: both halves applied to concrete firmwares — two
transient failures then success, and eight transient failures. -/
theorem claim_C7_witness :
    (2 < 8 ∧ (∀ i, i < 2 → transientAttempt (twoFailOracle i)) ∧
     goodAttempt (twoFailOracle 2) ∧
     ((get_memory_map ptrsOk envReady twoFailOracle outs0).1 = EFI_SUCCESS ∧
      allocatedAddrs (get_memory_map ptrsOk envReady twoFailOracle outs0).2.2 =
        (List.range 3).map (fun i => (twoFailOracle i).alloc.addr) ∧
      freedAddrs (get_memory_map ptrsOk envReady twoFailOracle outs0).2.2 =
        (List.range 2).map (fun i => (twoFailOracle i).alloc.addr) ∧
      (get_memory_map ptrsOk envReady twoFailOracle outs0).2.1.memoryMap =
        (twoFailOracle 2).alloc.addr ∧
      allocatedAddrs (get_memory_map ptrsOk envReady twoFailOracle outs0).2.2 =
        freedAddrs (get_memory_map ptrsOk envReady twoFailOracle outs0).2.2 ++
          [(get_memory_map ptrsOk envReady twoFailOracle outs0).2.1.memoryMap])) ∧
    ((∀ i, i < 8 → transientAttempt (allTransientOracle i)) ∧
     ((get_memory_map ptrsOk envReady allTransientOracle outs0).1 =
        EFI_DEVICE_ERROR ∧
      allocatedAddrs
        (get_memory_map ptrsOk envReady allTransientOracle outs0).2.2 =
        (List.range 8).map (fun i => (allTransientOracle i).alloc.addr) ∧
      freedAddrs (get_memory_map ptrsOk envReady allTransientOracle outs0).2.2 =
        allocatedAddrs
          (get_memory_map ptrsOk envReady allTransientOracle outs0).2.2)) :=
  ⟨⟨by decide, by decide, by decide,
    claim_C7.1 twoFailOracle outs0 2 (by decide) (by decide) (by decide)⟩,
   ⟨by decide, claim_C7.2 allTransientOracle outs0 (by decide)⟩⟩

/-- C8: exit_boot_services with a null (zero) image handle returns
EFI_INVALID_PARAMETER with an empty trace — no firmware call is made;
and an unready environment (null gST or null BootServices) makes both
exit_boot_services and get_memory_map return EFI_NOT_READY at once
with an empty trace — no firmware calls, no retries. -/
theorem claim_C8 :
    (∀ (env : Env) (oracle : Oracle),
      exit_boot_services 0 env oracle = (EFI_INVALID_PARAMETER, [])) ∧
    (∀ (imageHandle : Nat) (env : Env) (oracle : Oracle), imageHandle ≠ 0 →
      env.gstNull = true ∨ env.bootServicesNull = true →
      exit_boot_services imageHandle env oracle = (EFI_NOT_READY, [])) ∧
    (∀ (ptrs : GmmPtrs) (env : Env) (oracle : Oracle) (outs : GmmOuts),
      ptrs.memoryMapNull = false → ptrs.memoryMapSizeNull = false →
      ptrs.mapKeyNull = false → ptrs.descriptorSizeNull = false →
      ptrs.descriptorVersionNull = false →
      env.gstNull = true ∨ env.bootServicesNull = true →
      get_memory_map ptrs env oracle outs = (EFI_NOT_READY, outs, [])) := by
  refine ⟨?_, ?_, ?_⟩
  · intro env oracle
    simp [exit_boot_services]
  · intro imageHandle env oracle hh he
    rcases he with he | he <;> simp [exit_boot_services, hh, he]
  · intro ptrs env oracle outs h1 h2 h3 h4 h5 he
    rcases he with he | he <;> simp [get_memory_map, h1, h2, h3, h4, h5, he]

/-- C8 witness: the three validation paths at concrete inputs. -/
theorem claim_C8_witness :
    exit_boot_services 0 envReady specTraceOracle = (EFI_INVALID_PARAMETER, []) ∧
    ((1 : Nat) ≠ 0 ∧
      (envUnready.gstNull = true ∨ envUnready.bootServicesNull = true) ∧
      exit_boot_services 1 envUnready specTraceOracle = (EFI_NOT_READY, [])) ∧
    ((envUnready.gstNull = true ∨ envUnready.bootServicesNull = true) ∧
      get_memory_map ptrsOk envUnready specTraceOracle outs0 =
        (EFI_NOT_READY, outs0, [])) :=
  ⟨claim_C8.1 envReady specTraceOracle,
   ⟨by decide, Or.inl rfl,
    claim_C8.2.1 1 envUnready specTraceOracle (by decide) (Or.inl rfl)⟩,
   ⟨Or.inl rfl,
    claim_C8.2.2 ptrsOk envUnready specTraceOracle outs0 rfl rfl rfl rfl rfl
      (Or.inl rfl)⟩⟩

/-- C9: every handshake call in an exit_boot_services trace uses the
map key written by the fetch of its own attempt — whose probe,
allocation and fetch all succeeded — and every fetch call uses the
buffer freshly allocated by its own attempt; no key or buffer is
carried over from an earlier attempt. -/
theorem claim_C9 (imageHandle : Nat) (env : Env) (oracle : Oracle) :
    ∀ e ∈ (exit_boot_services imageHandle env oracle).2,
      (∀ i k, e = Event.exitBS i k →
        k = (oracle i).fetch.mapKey ∧ probeOk (oracle i) ∧ allocOk (oracle i) ∧
          fetchOk (oracle i)) ∧
      (∀ i addr s, e = Event.fetch i addr s → addr = (oracle i).alloc.addr) := by
  intro e he
  have hok := exit_boot_services_events_ok imageHandle env oracle e he
  constructor
  · intro i k heq
    subst heq
    exact hok
  · intro i addr s heq
    subst heq
    exact hok.1

/-- C9 witness: the first handshake call on the all-stale firmware
carries attempt 0's fetch-written key 200. -/
theorem claim_C9_witness :
    Event.exitBS 0 200 ∈ (exit_boot_services 1 envReady allStaleExitOracle).2 ∧
    (200 = (allStaleExitOracle 0).fetch.mapKey ∧
      probeOk (allStaleExitOracle 0) ∧ allocOk (allStaleExitOracle 0) ∧
      fetchOk (allStaleExitOracle 0)) :=
  ⟨by decide,
   (claim_C9 1 envReady allStaleExitOracle (Event.exitBS 0 200) (by decide)).1
     0 200 rfl⟩

/-- C10: whenever get_memory_map returns a status other than
EFI_SUCCESS, the caller's MemoryMap and MemoryMapSize cells hold
exactly the values they held before the call. -/
theorem claim_C10 (ptrs : GmmPtrs) (env : Env) (oracle : Oracle) (outs : GmmOuts)
    (h : (get_memory_map ptrs env oracle outs).1 ≠ EFI_SUCCESS) :
    (get_memory_map ptrs env oracle outs).2.1.memoryMap = outs.memoryMap ∧
    (get_memory_map ptrs env oracle outs).2.1.memoryMapSize =
      outs.memoryMapSize := by
  by_cases hv : (ptrs.memoryMapNull || ptrs.memoryMapSizeNull || ptrs.mapKeyNull ||
      ptrs.descriptorSizeNull || ptrs.descriptorVersionNull) = true
  · rw [show get_memory_map ptrs env oracle outs = (EFI_INVALID_PARAMETER, outs, [])
      from by simp [get_memory_map, hv]]
    exact ⟨rfl, rfl⟩
  · by_cases he : (env.gstNull || env.bootServicesNull) = true
    · rw [show get_memory_map ptrs env oracle outs = (EFI_NOT_READY, outs, [])
        from by simp [get_memory_map, hv, he]]
      exact ⟨rfl, rfl⟩
    · have hrun : get_memory_map ptrs env oracle outs = gmmLoop oracle 0 8 outs := by
        simp only [get_memory_map]
        simp at hv he
        simp [hv, he, MEMORY_MAP_MAX_RETRIES]
      rw [hrun] at h ⊢
      exact gmmLoop_frame oracle 8 0 outs h

/-- C10 witness: a failing run (misaligned buffer, EFI_DEVICE_ERROR)
leaves the out-cells at their initial values. -/
theorem claim_C10_witness :
    (get_memory_map ptrsOk envReady misalignedOracle outs0).1 ≠ EFI_SUCCESS ∧
    ((get_memory_map ptrsOk envReady misalignedOracle outs0).2.1.memoryMap =
      outs0.memoryMap ∧
     (get_memory_map ptrsOk envReady misalignedOracle outs0).2.1.memoryMapSize =
      outs0.memoryMapSize) :=
  ⟨by decide, claim_C10 ptrsOk envReady misalignedOracle outs0 (by decide)⟩

end FlexOS
